import Mathlib

/-!
Verification development for the streetlight ML pipeline
(`src/ml_pipeline/feature_engineering.py`, `inference.py`, `model_training.py`,
`data_collection.py`).

Modelling conventions
* A pandas cell (float64) is `Cell := Option PVal`: `none` models NaN,
  `PVal.q x` a finite value (ℚ stands in for float64; none of the verified
  properties depend on rounding), `PVal.pinf`/`PVal.ninf` model ±inf.
* A `Frame` is column-oriented: an index (pandas row labels) plus an ordered
  association list of named columns.  Column names are assumed unique, as they
  are everywhere in this code base.
* Timestamps are modelled as already-parsed epoch-second values, so
  `pd.to_datetime` on the timestamp column is the identity.
* `np.log1p` and the square root inside a sample standard deviation are
  real-valued; their numeric values are irrelevant to every claim (only
  null-ness, shape and determinism matter), so they are modelled by fixed
  total stand-in functions `log1pQ` and `sqrtQ` on the finite domain, while
  the NaN/∞ cases (`log1p` below -1, std of fewer than two samples) are
  modelled exactly.
-/

deriving instance DecidableEq for Except

namespace Streetlight

/-- A non-NaN pandas float64 value: a finite value or ±inf. -/
inductive PVal where
  | q (x : ℚ)
  | pinf
  | ninf
deriving DecidableEq, Repr

/-- A pandas cell: `none` is NaN. -/
abbrev Cell := Option PVal

/-- Stand-in for the (irrational) square root used by a sample standard
deviation; no claim depends on the numeric value of a std cell. -/
def sqrtQ (x : ℚ) : ℚ := x

/-- Stand-in for `np.log1p` on arguments above -1; no claim depends on its
numeric value. -/
def log1pQ (x : ℚ) : ℚ := x

/-- IEEE-style addition on non-NaN values; `none` is the NaN result of inf - inf. -/
def PVal.add : PVal → PVal → Cell
  | .q a, .q b => some (.q (a + b))
  | .q _, .pinf => some .pinf
  | .q _, .ninf => some .ninf
  | .pinf, .q _ => some .pinf
  | .ninf, .q _ => some .ninf
  | .pinf, .pinf => some .pinf
  | .ninf, .ninf => some .ninf
  | .pinf, .ninf => none
  | .ninf, .pinf => none

/-- IEEE-style subtraction on non-NaN values. -/
def PVal.sub : PVal → PVal → Cell
  | .q a, .q b => some (.q (a - b))
  | .q _, .pinf => some .ninf
  | .q _, .ninf => some .pinf
  | .pinf, .q _ => some .pinf
  | .ninf, .q _ => some .ninf
  | .pinf, .ninf => some .pinf
  | .ninf, .pinf => some .ninf
  | .pinf, .pinf => none
  | .ninf, .ninf => none

/-- IEEE-style multiplication on non-NaN values (`inf * 0` is NaN). -/
def PVal.mul : PVal → PVal → Cell
  | .q a, .q b => some (.q (a * b))
  | .q a, .pinf => if a > 0 then some .pinf else if a < 0 then some .ninf else none
  | .q a, .ninf => if a > 0 then some .ninf else if a < 0 then some .pinf else none
  | .pinf, .q b => if b > 0 then some .pinf else if b < 0 then some .ninf else none
  | .ninf, .q b => if b > 0 then some .ninf else if b < 0 then some .pinf else none
  | .pinf, .pinf => some .pinf
  | .ninf, .ninf => some .pinf
  | .pinf, .ninf => some .ninf
  | .ninf, .pinf => some .ninf

/-- IEEE-style division on non-NaN values: `x/0` is ±inf for x ≠ 0 and NaN for
`0/0` (the zero divisor is the positive zero of float64). -/
def PVal.div : PVal → PVal → Cell
  | .q a, .q b =>
      if b = 0 then (if a > 0 then some .pinf else if a < 0 then some .ninf else none)
      else some (.q (a / b))
  | .q _, .pinf => some (.q 0)
  | .q _, .ninf => some (.q 0)
  | .pinf, .q b => if b < 0 then some .ninf else some .pinf
  | .ninf, .q b => if b < 0 then some .pinf else some .ninf
  | .pinf, .pinf => none
  | .pinf, .ninf => none
  | .ninf, .pinf => none
  | .ninf, .ninf => none

/-- Total order on non-NaN values: -inf < finite < +inf. -/
def PVal.le : PVal → PVal → Bool
  | .ninf, _ => true
  | _, .pinf => true
  | .q a, .q b => decide (a ≤ b)
  | .q _, .ninf => false
  | .pinf, .q _ => false
  | .pinf, .ninf => false

def PVal.minv (a b : PVal) : PVal := if a.le b then a else b

def PVal.maxv (a b : PVal) : PVal := if a.le b then b else a

/-- `cell > 0` as pandas evaluates it: a NaN comparison is `False`. -/
def gtZeroCell : Cell → Bool
  | some (.q v) => decide (v > 0)
  | some .pinf => true
  | some .ninf => false
  | none => false

/-- `cell ≥ c` as pandas evaluates it (NaN compares `False`). -/
def cellGe (x : Cell) (c : ℚ) : Bool :=
  match x with
  | some (.q v) => decide (v ≥ c)
  | some .pinf => true
  | some .ninf => false
  | none => false

/-- `cell ≤ c` as pandas evaluates it (NaN compares `False`). -/
def cellLeC (x : Cell) (c : ℚ) : Bool :=
  match x with
  | some (.q v) => decide (v ≤ c)
  | some .pinf => false
  | some .ninf => true
  | none => false

/-- Booleans cast with `.astype(int)`. -/
def boolToCell (b : Bool) : Cell := some (.q (if b then 1 else 0))

/-- Order used by `sort_values` on the key column; NaN sorts last
(`na_position='last'`). -/
def cellKeyLE : Cell → Cell → Bool
  | some x, some y => x.le y
  | some _, none => true
  | none, some _ => false
  | none, none => true

/-- A pandas DataFrame, column-oriented: row labels plus named columns.
Column names are unique throughout the modelled code. -/
structure Frame where
  index : List ℕ
  cols : List (String × List Cell)
deriving DecidableEq, Repr

def lookupCol : List (String × List Cell) → String → Option (List Cell)
  | [], _ => none
  | (n, cs) :: rest, s => if n = s then some cs else lookupCol rest s

def setColAux : List (String × List Cell) → String → List Cell → List (String × List Cell)
  | [], s, cs => [(s, cs)]
  | (n, old) :: rest, s, cs =>
      if n = s then (n, cs) :: rest else (n, old) :: setColAux rest s cs

def Frame.getCol (f : Frame) (s : String) : Option (List Cell) := lookupCol f.cols s

/-- `df[name] = series`: replace an existing column in place, else append. -/
def Frame.setCol (f : Frame) (s : String) (cs : List Cell) : Frame :=
  ⟨f.index, setColAux f.cols s cs⟩

def Frame.hasCol (f : Frame) (s : String) : Bool := (f.getCol s).isSome

def Frame.nRows (f : Frame) : ℕ := f.index.length

/-- `df.empty`: some axis has length zero. -/
def Frame.isEmpty (f : Frame) : Bool := f.nRows == 0 || f.cols.isEmpty

/-- Well-formedness: every column has as many cells as there are row labels. -/
def Frame.WF (f : Frame) : Prop := ∀ c ∈ f.cols, c.2.length = f.index.length

/-- Column of length `n` given by a cell-valued function of the position. -/
def rmap (n : ℕ) (g : ℕ → Cell) : List Cell := (List.range n).map g

/-- `series.shift(k)` for `k ≥ 0` (lag): null for the first `k` rows. -/
def seriesLag (k : ℕ) (xs : List Cell) : List Cell :=
  rmap xs.length fun i => if i < k then none else xs.getD (i - k) none

/-- `series.shift(-k)` (lead): null past the end of the frame. -/
def seriesLead (k : ℕ) (xs : List Cell) : List Cell :=
  rmap xs.length fun i => xs.getD (i + k) none

/-- NaN-propagating cell subtraction. -/
def cellSub (a b : Cell) : Cell :=
  match a, b with
  | some x, some y => x.sub y
  | _, _ => none

/-- `series.diff()`: row minus previous row, null for the first row. -/
def seriesDiff (xs : List Cell) : List Cell :=
  rmap xs.length fun i => if i = 0 then none else cellSub (xs.getD i none) (xs.getD (i - 1) none)

def ffillAux : Cell → List Cell → List Cell
  | _, [] => []
  | prev, none :: rest => prev :: ffillAux prev rest
  | _, some v :: rest => some v :: ffillAux (some v) rest

/-- Forward fill, as `pct_change`'s default `fill_method='pad'` applies it. -/
def ffill (xs : List Cell) : List Cell := ffillAux none xs

/-- `series.pct_change()`: pad-fill, then `filled[i]/filled[i-1] - 1`;
null for the first row and for a 0/0 quotient, ±inf for `x/0` with `x ≠ 0`. -/
def seriesPct (xs : List Cell) : List Cell :=
  let f := ffill xs
  rmap xs.length fun i =>
    if i = 0 then none
    else
      match f.getD i none, f.getD (i - 1) none with
      | some a, some b => (a.div b).bind fun r => r.sub (.q 1)
      | _, _ => none

/-- The non-NaN observations of the trailing window of width `W` ending at
row `i` (pandas rolling windows count only non-null observations). -/
def windowAt (W : ℕ) (xs : List Cell) (i : ℕ) : List PVal :=
  ((xs.take (i + 1)).drop (i + 1 - W)).reduceOption

def sumP : List PVal → Cell
  | [] => some (.q 0)
  | x :: rest => (sumP rest).bind (PVal.add x)

/-- All-finite extractor: `some` exactly when no observation is ±inf. -/
def ratsOf : List PVal → Option (List ℚ)
  | [] => some []
  | .q x :: rest => (ratsOf rest).map (x :: ·)
  | .pinf :: _ => none
  | .ninf :: _ => none

def meanCell (obs : List PVal) : Cell :=
  if obs.isEmpty then none
  else (sumP obs).bind fun s => s.div (.q (obs.length : ℚ))

def sampleVar (rs : List ℚ) : ℚ :=
  let n : ℚ := (rs.length : ℚ)
  let m := rs.sum / n
  ((rs.map fun x => (x - m) ^ 2).sum) / (n - 1)

/-- Sample standard deviation (ddof = 1): NaN below two observations; NaN as
well when an observation is ±inf (float std of a set containing ±inf). -/
def stdCell (obs : List PVal) : Cell :=
  if obs.length < 2 then none
  else
    match ratsOf obs with
    | some rs => some (.q (sqrtQ (sampleVar rs)))
    | none => none

def minCell : List PVal → Cell
  | [] => none
  | x :: rest =>
      match minCell rest with
      | none => some x
      | some m => some (x.minv m)

def maxCell : List PVal → Cell
  | [] => none
  | x :: rest =>
      match maxCell rest with
      | none => some x
      | some m => some (x.maxv m)

/-- `series.rolling(window=W, min_periods=1).mean()`. -/
def rollingMean (W : ℕ) (xs : List Cell) : List Cell :=
  rmap xs.length fun i => meanCell (windowAt W xs i)

/-- `series.rolling(window=W, min_periods=1).std()`. -/
def rollingStd (W : ℕ) (xs : List Cell) : List Cell :=
  rmap xs.length fun i => stdCell (windowAt W xs i)

/-- `series.rolling(window=W, min_periods=1).min()`. -/
def rollingMin (W : ℕ) (xs : List Cell) : List Cell :=
  rmap xs.length fun i => minCell (windowAt W xs i)

/-- `series.rolling(window=W, min_periods=1).max()`. -/
def rollingMax (W : ℕ) (xs : List Cell) : List Cell :=
  rmap xs.length fun i => maxCell (windowAt W xs i)

/-- `series.fillna(v)`. -/
def fillnaCells (v : ℚ) (xs : List Cell) : List Cell :=
  xs.map fun c => match c with | none => some (.q v) | some x => some x

/-- `pd.to_datetime(ts).dt.hour`: timestamps are modelled as epoch seconds. -/
def hourOfTs : Cell → Cell
  | some (.q t) => some (.q ((((t / 3600 : ℚ)).floor % 24 : ℤ) : ℚ))
  | _ => none

/-- `pd.to_datetime(ts).dt.dayofweek` (Monday = 0; epoch day zero was a
Thursday, hence the +3). -/
def dowOfTs : Cell → Cell
  | some (.q t) => some (.q (((((t / 86400 : ℚ)).floor + 3) % 7 : ℤ) : ℚ))
  | _ => none

/-- `np.log1p` on a cell: NaN below -1, -inf at -1. -/
def log1pCell : Cell → Cell
  | some (.q x) =>
      if x < -1 then none else if x = -1 then some .ninf else some (.q (log1pQ x))
  | some .pinf => some .pinf
  | some .ninf => none
  | none => none

/-- `x ** 2` on a cell. -/
def sqCell (c : Cell) : Cell :=
  match c with
  | some x => x.mul x
  | none => none

/-- `series.min()` (skipna; NaN when every cell is null). -/
def colMin (xs : List Cell) : Cell := minCell xs.reduceOption

/-- `(ts - ts.min()).dt.total_seconds() / 3600`. -/
def timeSinceStart (ts : List Cell) : List Cell :=
  let m := colMin ts
  rmap ts.length fun i =>
    match ts.getD i none, m with
    | some t, some m0 => (t.sub m0).bind fun d => d.div (.q 3600)
    | _, _ => none

/-- `FeatureEngineer._add_basic_features`. -/
def addBasicFeatures (f : Frame) : Frame :=
  let f1 :=
    match f.getCol "timestamp" with
    | none => f
    | some ts =>
        let hour := ts.map hourOfTs
        let dow := ts.map dowOfTs
        let g := f.setCol "hour" hour
        let g := g.setCol "day_of_week" dow
        let g := g.setCol "is_weekend" (dow.map fun c => boolToCell (cellGe c 5))
        g.setCol "is_night"
          (hour.map fun c => boolToCell (cellGe c 20 || cellLeC c 6))
  match f1.getCol "ambient_light" with
  | none => f1
  | some amb =>
      let g := f1.setCol "ambient_light_squared" (amb.map sqCell)
      g.setCol "ambient_light_log" (amb.map log1pCell)

/-- `FeatureEngineer._add_temporal_features` (`pd.to_datetime` is the
identity under the epoch-seconds modelling of timestamps). -/
def addTemporalFeatures (f : Frame) : Frame :=
  match f.getCol "timestamp" with
  | none => f
  | some ts =>
      let g := f.setCol "timestamp" ts
      g.setCol "time_since_start" (timeSinceStart ts)

/-- The columns rolled, lagged and differenced by the pipeline. -/
def rollNames : List String := ["ambient_light", "active_lights_count", "faulty_lights_count"]

def addRollingFor (W : ℕ) (f : Frame) (c : String) : Frame :=
  match f.getCol c with
  | none => f
  | some xs =>
      let g := f.setCol (c ++ "_rolling_mean") (rollingMean W xs)
      let g := g.setCol (c ++ "_rolling_std") (rollingStd W xs)
      let g := g.setCol (c ++ "_rolling_min") (rollingMin W xs)
      let g := g.setCol (c ++ "_rolling_max") (rollingMax W xs)
      let g := g.setCol (c ++ "_diff") (seriesDiff xs)
      g.setCol (c ++ "_pct_change") (seriesPct xs)

/-- `FeatureEngineer._add_rolling_features`. -/
def addRollingFeatures (W : ℕ) (f : Frame) : Frame :=
  rollNames.foldl (addRollingFor W) f

def lightLdrCols : List String := ["light_1_ldr", "light_2_ldr", "light_3_ldr", "light_4_ldr"]

def lightFaultCols : List String :=
  ["light_1_fault", "light_2_fault", "light_3_fault", "light_4_fault"]

def lightStateCols : List String :=
  ["light_1_state", "light_2_state", "light_3_state", "light_4_state"]

/-- The non-NaN observations of row `i` across the named columns
(`axis=1` aggregation). -/
def obsRow (f : Frame) (names : List String) (i : ℕ) : List PVal :=
  (names.map fun c => ((f.getCol c).getD []).getD i none).reduceOption

/-- Divide a cell by a positive constant count. -/
def cellDivNat (k : ℕ) (c : Cell) : Cell :=
  c.bind fun v => v.div (.q (k : ℚ))

/-- `FeatureEngineer._add_light_features`. -/
def addLightFeatures (f : Frame) : Frame :=
  let availLdr := lightLdrCols.filter fun c => f.hasCol c
  let f1 :=
    if availLdr.isEmpty then f
    else
      let g := f.setCol "mean_light_ldr" (rmap f.nRows fun i => meanCell (obsRow f availLdr i))
      let g := g.setCol "std_light_ldr" (rmap f.nRows fun i => stdCell (obsRow f availLdr i))
      let g := g.setCol "min_light_ldr" (rmap f.nRows fun i => minCell (obsRow f availLdr i))
      g.setCol "max_light_ldr" (rmap f.nRows fun i => maxCell (obsRow f availLdr i))
  let availFault := lightFaultCols.filter fun c => f1.hasCol c
  let f2 :=
    if availFault.isEmpty then f1
    else
      let tot := rmap f1.nRows fun i => sumP (obsRow f1 availFault i)
      let g := f1.setCol "total_faults" tot
      g.setCol "fault_rate" (tot.map (cellDivNat availFault.length))
  let availState := lightStateCols.filter fun c => f2.hasCol c
  if availState.isEmpty then f2
  else
    let tot := rmap f2.nRows fun i => sumP (obsRow f2 availState i)
    let g := f2.setCol "total_active" tot
    g.setCol "active_rate" (tot.map (cellDivNat availState.length))

/-- The default lag set of `FeatureEngineer._add_lag_features`. -/
def lagList : List ℕ := [1, 3, 6]

def addLagFor (f : Frame) (c : String) : Frame :=
  match f.getCol c with
  | none => f
  | some xs =>
      lagList.foldl (fun g k => g.setCol (c ++ "_lag_" ++ toString k) (seriesLag k xs)) f

/-- `FeatureEngineer._add_lag_features` with the default lags {1, 3, 6}. -/
def addLagFeatures (f : Frame) : Frame :=
  rollNames.foldl addLagFor f

/-- The `target_failure` series: `(shift(-6) > 0) | (shift(-3) > 0)`, cast to
int (a NaN beyond the end of the frame compares `False`, hence 0). -/
def targetFailureSeries (xs : List Cell) : List Cell :=
  let b6 := (seriesLead 6 xs).map gtZeroCell
  let b3 := (seriesLead 3 xs).map gtZeroCell
  (List.zipWith (fun a b => a || b) b6 b3).map boolToCell

/-- The `target_anomaly` series: `|x - mean| > 2 * std` over the whole column,
cast to int (NaN comparisons give `False`). -/
def targetAnomalySeries (xs : List Cell) : List Cell :=
  let obs := xs.reduceOption
  let rs := ratsOf obs
  rmap xs.length fun i =>
    match xs.getD i none, rs with
    | some (.q v), some vals =>
        if vals.length < 2 then boolToCell false
        else
          let m := vals.sum / (vals.length : ℚ)
          let s := sqrtQ (sampleVar vals)
          boolToCell (decide (|v - m| > 2 * s))
    | _, _ => boolToCell false

/-- `FeatureEngineer._create_target`. -/
def createTarget (f : Frame) (targetType : String) : Frame :=
  if targetType = "failure" then
    match f.getCol "faulty_lights_count" with
    | none => f
    | some xs => f.setCol "target_failure" (fillnaCells 0 (targetFailureSeries xs))
  else if targetType = "anomaly" then
    match f.getCol "ambient_light" with
    | none => f
    | some xs => f.setCol "target_anomaly" (targetAnomalySeries xs)
  else f

/-- Row `i` has no null in any column. -/
def rowComplete (f : Frame) (i : ℕ) : Bool :=
  f.cols.all fun c => (c.2.getD i none).isSome

/-- `df.dropna()`: keep exactly the rows with no null in any column, retaining
their index labels. -/
def Frame.dropna (f : Frame) : Frame :=
  let keep := (List.range f.nRows).filter (rowComplete f)
  ⟨keep.map fun i => f.index.getD i 0,
   f.cols.map fun c => (c.1, keep.map fun i => c.2.getD i none)⟩

/-- `df.sort_values('timestamp')`: stable permutation of the rows by the
timestamp key, NaN keys last; raises `KeyError` when the column is absent.
(pandas' default quicksort is unstable on tied keys but deterministic; no
verified property observes the tie order.) -/
def sortValuesTs (f : Frame) : Except String Frame :=
  match f.getCol "timestamp" with
  | none => .error "timestamp"
  | some ts =>
      .ok ⟨(List.insertionSort
              (fun i j : ℕ => cellKeyLE (ts.getD i none) (ts.getD j none) = true)
              (List.range f.nRows)).map fun i => f.index.getD i 0,
           f.cols.map fun c =>
             (c.1, (List.insertionSort
                (fun i j : ℕ => cellKeyLE (ts.getD i none) (ts.getD j none) = true)
                (List.range f.nRows)).map fun i => c.2.getD i none)⟩

/-- `df.reset_index(drop=True)`. -/
def Frame.resetIndexDrop (f : Frame) : Frame := ⟨List.range f.nRows, f.cols⟩

/-- Steps 2-7 of `FeatureEngineer.create_features` on the sorted, reindexed
frame, ending in the `dropna` pruning. -/
def featurePipe (W : ℕ) (targetCol : Option String) (f : Frame) : Frame :=
  let f1 := addBasicFeatures f
  let f2 := addTemporalFeatures f1
  let f3 := addRollingFeatures W f2
  let f4 := addLightFeatures f3
  let f5 := addLagFeatures f4
  let f6 := match targetCol with
    | some t => createTarget f5 t
    | none => f5
  f6.dropna

/-- `FeatureEngineer.create_features` (window size `W`, `self.window_size`):
empty frames are returned unchanged; otherwise sort by timestamp, reset the
index, add features and prune null rows.  The only uncaught exception in the
function is the `KeyError` of `sort_values` when `timestamp` is absent,
modelled as the `Except` error. -/
def createFeatures (W : ℕ) (f : Frame) (targetCol : Option String) : Except String Frame :=
  if f.isEmpty then .ok f
  else (sortValuesTs f).map fun g => featurePipe W targetCol g.resetIndexDrop

/-- The metadata/target exclusion list of `get_feature_columns`. -/
def excludeColNames : List String :=
  ["id", "device_id", "timestamp", "created_at", "gps_latitude",
   "gps_longitude", "gps_valid", "lights_data", "target_failure",
   "target_anomaly", "time_string", "received_at"]

/-- `FeatureEngineer.get_feature_columns` (`exclude_targets` defaults to
`True` in the source; call sites pass it explicitly here). -/
def getFeatureColumns (f : Frame) (excludeTargets : Bool) : List String :=
  let cs := (f.cols.map Prod.fst).filter fun c => !(excludeColNames.contains c)
  if excludeTargets then cs.filter fun c => !(c.startsWith "target_") else cs

/-! ## Inference (`src/ml_pipeline/inference.py`) -/

/-- A loaded failure classifier artifact: its behaviour on one input vector.
The artifact is opaque data created by training; only its input contract
matters here. -/
structure RFModel where
  predictOne : List PVal → ℤ
  predictProbaOne : List PVal → List ℚ

/-- A loaded anomaly detector artifact. -/
structure IFModel where
  predictOne : List PVal → ℤ
  scoreOne : List PVal → ℚ

/-- A structured prediction result, as the inference service returns it.
The `timestamp` field of the Python result (wall-clock `utcnow`) is outside
the model and omitted; no claim concerns it. -/
inductive InferResult where
  | failureOk (prediction : ℤ) (probability : ℚ) (failureProbability : ℚ)
  | anomalyOk (isAnomaly : Bool) (anomalyScore : ℚ)
  | errObj (msg : String)
deriving DecidableEq, Repr

/-- `pd.DataFrame([sensor_data])`: a one-row frame with the dict's keys as
columns (dict keys are unique). -/
def mkSensorFrame (row : List (String × Cell)) : Frame :=
  ⟨[0], row.map fun p => (p.1, [p.2])⟩

/-- `df.tail(k)`. -/
def frameTail (k : ℕ) (f : Frame) : Frame :=
  ⟨f.index.drop (f.nRows - k), f.cols.map fun c => (c.1, c.2.drop (f.nRows - k))⟩

/-- `pd.concat([a, b], ignore_index=True)`: union of columns (first frame's
order, then the second's new columns), absent cells filled with NaN, index
renumbered. -/
def concatRows (a b : Frame) : Frame :=
  let names := (a.cols.map Prod.fst) ++ ((b.cols.map Prod.fst).filter fun n => !(a.hasCol n))
  ⟨List.range (a.nRows + b.nRows),
   names.map fun n =>
     (n, ((a.getCol n).getD (List.replicate a.nRows none)) ++
         ((b.getCol n).getD (List.replicate b.nRows none)))⟩

/-- The message of the pandas `KeyError` for `df[list]` with absent columns
(Python's quoting of the names is abstracted away). -/
def keyErrorMsg (missing : List String) : String :=
  "[" ++ String.intercalate ", " missing ++ "] not in index"

/-- `df[names]` for a list of names: the sub-frame in the given order, or a
`KeyError` when any name is absent — pandas does NOT zero-fill or reindex
here. -/
def selectCols (names : List String) (f : Frame) : Except String Frame :=
  let missing := names.filter fun n => !(f.hasCol n)
  if missing.isEmpty then .ok ⟨f.index, names.map fun n => (n, (f.getCol n).getD [])⟩
  else .error (keyErrorMsg missing)

/-- `df.fillna(v)`. -/
def fillnaFrame (v : ℚ) (f : Frame) : Frame :=
  ⟨f.index, f.cols.map fun c => (c.1, fillnaCells v c.2)⟩

/-- Row `i` of the frame as a vector of cells, in column order. -/
def frameRowVals (f : Frame) (i : ℕ) : List Cell := f.cols.map fun c => c.2.getD i none

/-- `df.iloc[-1:].values`: the last row as a singleton batch, empty for an
empty frame (the slice does not raise). -/
def lastRows (f : Frame) : List (List Cell) :=
  if f.nRows = 0 then [] else [frameRowVals f (f.nRows - 1)]

/-- Extract the value of a known-non-null cell (applied only after
`fillna(0)`, which removes every NaN). -/
def cellVal (c : Cell) : PVal := c.getD (.q 0)

/-- The body of the `try` block of `MLInference.predict_failure`: every
`Except.error` models an exception caught by the surrounding handler. -/
def predictFailurePipe (sensor : List (String × Cell)) (hist : Option Frame)
    (features : Option (List String)) (m : RFModel) : Except String InferResult := do
  let df0 := mkSensorFrame sensor
  let df1 := match hist with
    | some h => if h.isEmpty then df0 else concatRows (frameTail 10 h) df0
    | none => df0
  let df2 ← createFeatures 10 df1 none
  let feats ← match features with
    | some fs => pure fs
    | none => Except.error "None not in index"
  let sub ← selectCols feats df2
  match lastRows (fillnaFrame 0 sub) with
  | [] => Except.error "Found array with 0 samples"
  | row :: _ =>
      let vals := row.map cellVal
      let pred := m.predictOne vals
      match m.predictProbaOne vals with
      | [] => Except.error "max arg is an empty sequence"
      | p :: ps =>
          pure (.failureOk pred (ps.foldl max p)
            (if (p :: ps).length > 1 then (p :: ps).getD 1 0 else 0))

/-- `MLInference.predict_failure`: a missing model short-circuits to the
structured error; any exception in the pipeline is caught and surfaced as a
structured error — the function is total and never raises. -/
def predictFailure (sensor : List (String × Cell)) (hist : Option Frame)
    (model : Option RFModel) (features : Option (List String)) : InferResult :=
  match model with
  | none => .errObj "Model not loaded"
  | some m =>
      match predictFailurePipe sensor hist features m with
      | .ok r => r
      | .error e => .errObj e

/-- The body of the `try` block of `MLInference.detect_anomaly`. -/
def detectAnomalyPipe (sensor : List (String × Cell)) (hist : Option Frame)
    (features : Option (List String)) (m : IFModel) : Except String InferResult := do
  let df0 := mkSensorFrame sensor
  let df1 := match hist with
    | some h => if h.isEmpty then df0 else concatRows (frameTail 10 h) df0
    | none => df0
  let df2 ← createFeatures 10 df1 none
  let feats ← match features with
    | some fs => pure fs
    | none => Except.error "None not in index"
  let sub ← selectCols feats df2
  match lastRows (fillnaFrame 0 sub) with
  | [] => Except.error "Found array with 0 samples"
  | row :: _ =>
      let vals := row.map cellVal
      pure (.anomalyOk (m.predictOne vals == -1) (m.scoreOne vals))

/-- `MLInference.detect_anomaly`: total, structured-error on any failure. -/
def detectAnomaly (sensor : List (String × Cell)) (hist : Option Frame)
    (model : Option IFModel) (features : Option (List String)) : InferResult :=
  match model with
  | none => .errObj "Model not loaded"
  | some m =>
      match detectAnomalyPipe sensor hist features m with
      | .ok r => r
      | .error e => .errObj e

/-- The loaded-artifact state of an `MLInference` instance. -/
structure InferState where
  failureModel : Option RFModel
  failureFeatures : Option (List String)
  anomalyModel : Option IFModel
  anomalyFeatures : Option (List String)

/-- The record `MLInference.predict` returns: always both entries. -/
structure PredictOut where
  failure : InferResult
  anomaly : InferResult
deriving DecidableEq, Repr

/-- `MLInference.predict`: one failure entry, one anomaly entry, each computed
independently by its total sub-function. -/
def predict (sensor : List (String × Cell)) (hist : Option Frame)
    (st : InferState) : PredictOut :=
  ⟨predictFailure sensor hist st.failureModel st.failureFeatures,
   detectAnomaly sensor hist st.anomalyModel st.anomalyFeatures⟩

/-- Modelled from the spec: step 5 of §4.3 — "Reindex to the model's stored
FeatureSchema: columns present in both are kept in schema order; columns
missing from the computed row are filled with zero; columns present but not
in schema are dropped."  Stated over row `i` of a computed feature frame, for
comparison with the code's `df[schema]` selection. -/
def reindexRowSpec (schema : List String) (f : Frame) (i : ℕ) : List PVal :=
  schema.map fun n => (((f.getCol n).getD []).getD i none).getD (.q 0)

/-! ## Training (`src/ml_pipeline/model_training.py`) -/

/-- Outcome of a training run: an uncaught exception with the artifact files
written before it, or completion with the files written.  Training-time
metric values (accuracy, classification report) are not modelled; no claim
references them. -/
inductive TrainOutcome where
  | raised (msg : String) (written : List String)
  | done (written : List String) (featureCount : ℕ) (trainSamples : ℕ) (testSamples : ℕ)
deriving DecidableEq, Repr

/-- The conditions under which `train_test_split(test_size=0.2,
random_state=42, stratify=y)` succeeds, modelled approximately (every class
needs at least 2 members and both sides of the split must be non-trivial);
no verified claim's path reaches a split. -/
def stratifiedSplitOk (y : List Cell) : Bool :=
  let n := y.length
  let nTest := (n + 4) / 5
  let classes := y.dedup
  !y.isEmpty && classes.all (fun c => y.count c ≥ 2) &&
    nTest ≥ classes.length && (n - nTest) ≥ classes.length

/-- `ModelTrainer.train_failure_prediction_model`, on the frame read from the
dataset file.  The empty-dataset `ValueError` (the spec's
`EmptyDatasetError`) fires before anything is persisted; the synthetic-target
fallback reads `df['faulty_lights_count']`, which raises `KeyError` when that
column is absent.  The two `joblib.dump` calls are the last steps, so
`written` is empty on every raising path. -/
def trainFailure (df : Frame) : TrainOutcome :=
  if df.isEmpty then .raised "Empty dataset provided" []
  else
    match createFeatures 10 df (some "failure") with
    | .error e => .raised e []
    | .ok f =>
        let featureCols := getFeatureColumns f true
        let withTarget : Except String Frame :=
          if f.hasCol "target_failure" then .ok f
          else
            match f.getCol "faulty_lights_count" with
            | none => .error "faulty_lights_count"
            | some xs => .ok (f.setCol "target_failure" ((xs.map gtZeroCell).map boolToCell))
        match withTarget with
        | .error e => .raised e []
        | .ok g =>
            match selectCols featureCols g with
            | .error e => .raised e []
            | .ok _sub =>
                let y := (g.getCol "target_failure").getD []
                if stratifiedSplitOk y then
                  let nTest := (y.length + 4) / 5
                  .done ["models/failure_predictor.pkl",
                         "models/failure_predictor_features.pkl"]
                    featureCols.length (y.length - nTest) nTest
                else .raised "train_test_split" []

/-- `ModelTrainer.train_anomaly_detection_model`. -/
def trainAnomaly (df : Frame) : TrainOutcome :=
  if df.isEmpty then .raised "Empty dataset provided" []
  else
    match createFeatures 10 df none with
    | .error e => .raised e []
    | .ok f =>
        let featureCols := getFeatureColumns f true
        match selectCols featureCols f with
        | .error e => .raised e []
        | .ok sub =>
            if sub.nRows = 0 then .raised "Found array with 0 samples" []
            else
              .done ["models/anomaly_detector.pkl",
                     "models/anomaly_detector_features.pkl"]
                featureCols.length sub.nRows 0

/-! ## Data collection (`src/ml_pipeline/data_collection.py`) -/

/-- One entry of a reading's parsed `lights_data` JSON array; absent JSON
keys surface as `None`/falsy, modelled by the `Cell`/`Bool` fields. -/
structure LightRec where
  lid : ℤ
  ldrValue : Cell
  ldrRaw : Cell
  irSensor : Bool
  lightState : Bool
  faultDetected : Bool

/-- One row returned by the `sensor_data` query of
`DataCollector.collect_device_data`; `lightsData = none` models a SQL NULL or
unparseable JSON. -/
structure SensorRow where
  rid : ℕ
  deviceId : String
  timestamp : ℚ
  ambientLight : Cell
  ambientLightRaw : Cell
  gpsLatitude : Cell
  gpsLongitude : Cell
  gpsValid : Bool
  lightsData : Option (List LightRec)
  isDark : Bool
  activeLightsCount : Cell
  faultyLightsCount : Cell

def setField : List (String × Cell) → String → Cell → List (String × Cell)
  | [], s, v => [(s, v)]
  | (n, old) :: rest, s, v =>
      if n = s then (n, v) :: rest else (n, old) :: setField rest s v

/-- The 20 wide light columns, initialised to null. -/
def lightColsInit : List (String × Cell) :=
  ([1, 2, 3, 4].map fun i =>
    [("light_" ++ toString i ++ "_ldr", (none : Cell)),
     ("light_" ++ toString i ++ "_ldr_raw", (none : Cell)),
     ("light_" ++ toString i ++ "_ir", (none : Cell)),
     ("light_" ++ toString i ++ "_state", (none : Cell)),
     ("light_" ++ toString i ++ "_fault", (none : Cell))]).flatten

/-- Apply one `lights_data` entry: ids outside 1..4 are ignored. -/
def applyLight (cols : List (String × Cell)) (l : LightRec) : List (String × Cell) :=
  if 1 ≤ l.lid ∧ l.lid ≤ 4 then
    let p := "light_" ++ toString l.lid ++ "_"
    let cols := setField cols (p ++ "ldr") l.ldrValue
    let cols := setField cols (p ++ "ldr_raw") l.ldrRaw
    let cols := setField cols (p ++ "ir") (boolToCell l.irSensor)
    let cols := setField cols (p ++ "state") (boolToCell l.lightState)
    setField cols (p ++ "fault") (boolToCell l.faultDetected)
  else cols

/-- `DataCollector._parse_lights_data` for one row. -/
def parseLightsRow (r : SensorRow) : List (String × Cell) :=
  match r.lightsData with
  | none => lightColsInit
  | some ls => ls.foldl applyLight lightColsInit

/-- `DataCollector.collect_device_data`, given the rows the persistence layer
returned for the query (ordered by timestamp ascending): below the
`min_readings` floor the result is the empty frame, never a short one;
otherwise the per-light JSON is expanded into wide columns (skipped when the
column is entirely null). -/
def collectDeviceData (queried : List SensorRow) (minReadings : ℕ) :
    List (SensorRow × List (String × Cell)) :=
  if queried.length < minReadings then []
  else if queried.all fun r => r.lightsData.isNone then queried.map fun r => (r, [])
  else queried.map fun r => (r, parseLightsRow r)

/-! ## Frame builders used by the theorems -/

/-- A column of `n` finite cells given pointwise. -/
def qcol (n : ℕ) (v : ℕ → ℚ) : List Cell := rmap n fun i => some (.q (v i))

/-- A wide frame with the four core numeric columns the pipeline consumes
(timestamp plus the three lag/rolling source columns), all cells finite and
non-null — the shape `HistoryCollector` hands to `FeatureEngineer`. -/
def coreFrame (n : ℕ) (ts amb act fau : ℕ → ℚ) : Frame :=
  ⟨List.range n,
   [("timestamp", qcol n ts), ("ambient_light", qcol n amb),
    ("active_lights_count", qcol n act), ("faulty_lights_count", qcol n fau)]⟩

/-! ## Basic lemmas about the model -/

theorem range_map_getD {α : Type} (n : ℕ) (g : ℕ → α) (i : ℕ) (d : α) (h : i < n) :
    ((List.range n).map g).getD i d = g i := by
  simp [List.getD_eq_getElem?_getD, List.getElem?_map, List.getElem?_range h]

theorem rmap_getD (n : ℕ) (g : ℕ → Cell) (i : ℕ) (d : Cell) (h : i < n) :
    (rmap n g).getD i d = g i := range_map_getD n g i d h

theorem rmap_length (n : ℕ) (g : ℕ → Cell) : (rmap n g).length = n := by
  simp [rmap]

theorem qcol_getD (n : ℕ) (v : ℕ → ℚ) (i : ℕ) (h : i < n) :
    (qcol n v).getD i none = some (.q (v i)) := rmap_getD n _ i none h

theorem qcol_length (n : ℕ) (v : ℕ → ℚ) : (qcol n v).length = n := rmap_length n _

theorem lookupCol_setColAux_self (cols : List (String × List Cell)) (s : String)
    (cs : List Cell) : lookupCol (setColAux cols s cs) s = some cs := by
  induction cols with
  | nil => simp [setColAux, lookupCol]
  | cons c rest ih =>
      by_cases hc : c.1 = s
      · obtain ⟨n, old⟩ := c
        simp_all [setColAux, lookupCol]
      · obtain ⟨n, old⟩ := c
        simp_all [setColAux, lookupCol]

theorem lookupCol_setColAux_ne (cols : List (String × List Cell)) (s t : String)
    (cs : List Cell) (h : s ≠ t) :
    lookupCol (setColAux cols s cs) t = lookupCol cols t := by
  induction cols with
  | nil => simp [setColAux, lookupCol, h]
  | cons c rest ih =>
      obtain ⟨n, old⟩ := c
      by_cases hc : n = s
      · subst hc
        simp [setColAux, lookupCol, h]
      · simp [setColAux, hc, lookupCol, ih]

theorem getCol_setCol_self (f : Frame) (s : String) (cs : List Cell) :
    (f.setCol s cs).getCol s = some cs :=
  lookupCol_setColAux_self f.cols s cs

theorem getCol_setCol_ne (f : Frame) (s t : String) (cs : List Cell) (h : s ≠ t) :
    (f.setCol s cs).getCol t = f.getCol t :=
  lookupCol_setColAux_ne f.cols s t cs h

theorem index_setCol (f : Frame) (s : String) (cs : List Cell) :
    (f.setCol s cs).index = f.index := rfl

/-! ## C10: `create_features` on an empty frame -/

/-- C10: `create_features` applied to an empty frame returns that frame
unchanged and raises no error (lines 38-39 of `feature_engineering.py`
short-circuit before the `sort_values` call, the only raising statement). -/
theorem createFeatures_empty_frame (W : ℕ) (f : Frame) (t : Option String)
    (h : f.isEmpty = true) : createFeatures W f t = .ok f := by
  simp [createFeatures, h]

theorem createFeatures_empty_frame_witness :
    (Frame.mk [] []).isEmpty = true ∧
      createFeatures 10 (Frame.mk [] []) (some "failure") = .ok (Frame.mk [] []) :=
  ⟨by decide, createFeatures_empty_frame 10 (Frame.mk [] []) (some "failure") (by decide)⟩

/-! ## C7: training on an empty dataset -/

/-- C7: training either model on an empty dataset raises the empty-dataset
`ValueError` (the spec's `EmptyDatasetError`) before anything is persisted:
the outcome carries an empty list of written artifact/schema files. -/
theorem train_empty_dataset (df : Frame) (h : df.isEmpty = true) :
    trainFailure df = .raised "Empty dataset provided" [] ∧
      trainAnomaly df = .raised "Empty dataset provided" [] := by
  constructor
  · simp [trainFailure, h]
  · simp [trainAnomaly, h]

theorem train_empty_dataset_witness :
    (Frame.mk [] [("timestamp", []), ("ambient_light", [])]).isEmpty = true ∧
      trainFailure (Frame.mk [] [("timestamp", []), ("ambient_light", [])]) =
        .raised "Empty dataset provided" [] ∧
      trainAnomaly (Frame.mk [] [("timestamp", []), ("ambient_light", [])]) =
        .raised "Empty dataset provided" [] :=
  ⟨by decide,
   train_empty_dataset (Frame.mk [] [("timestamp", []), ("ambient_light", [])]) (by decide)⟩

/-! ## C9: the minimum-sample floor of the history collector -/

/-- C9: when the persistence layer returns fewer than `min_readings` rows,
`collect_device_data` returns an empty result, never a shorter frame. -/
theorem collect_below_floor (queried : List SensorRow) (minReadings : ℕ)
    (h : queried.length < minReadings) :
    collectDeviceData queried minReadings = [] := by
  simp [collectDeviceData, h]

def exampleSensorRow : SensorRow :=
  ⟨0, "SL-001", 0, some (.q 100), none, none, none, false, none, false,
   some (.q 4), some (.q 0)⟩

theorem collect_below_floor_witness :
    (List.replicate 50 exampleSensorRow).length < 100 ∧
      collectDeviceData (List.replicate 50 exampleSensorRow) 100 = [] :=
  ⟨by decide,
   collect_below_floor (List.replicate 50 exampleSensorRow) 100 (by decide)⟩

/-! ## C3: `predict` is fail-soft and its two entries are independent -/

/-- C3: `predict` always returns a record with a failure entry and an anomaly
entry and never raises (both sub-functions are total: every exception inside
their `try` blocks is modelled as an `Except.error` and caught into a
structured `errObj`).  Each entry depends only on its own kind's loaded
artifacts: replacing the failure-side state never changes the anomaly entry
and vice versa, and a missing model yields the structured
`\x7berror: Model not loaded\x7d` object for that kind only. -/
theorem predict_fail_soft_independent (s : List (String × Cell)) (h : Option Frame)
    (fm fm2 : Option RFModel) (ff ff2 : Option (List String))
    (am am2 : Option IFModel) (af af2 : Option (List String)) :
    (predict s h ⟨fm, ff, am, af⟩).anomaly = (predict s h ⟨fm2, ff2, am, af⟩).anomaly ∧
      (predict s h ⟨fm, ff, am, af⟩).failure = (predict s h ⟨fm, ff, am2, af2⟩).failure ∧
      (predict s h ⟨none, ff, am, af⟩).failure = .errObj "Model not loaded" ∧
      (predict s h ⟨fm, ff, none, af⟩).anomaly = .errObj "Model not loaded" :=
  ⟨rfl, rfl, rfl, rfl⟩

/-! ## C5: the failure label rule -/

/-- C5: when `create_features` runs with the failure label kind (step 7,
`_create_target(df, 'failure')`) on a frame containing the
`faulty_lights_count` column, the produced `target_failure` label at each row
`i` is 1 exactly when the faulty-light count 6 or 3 rows ahead is greater
than zero; a missing future value (row past the end, a NaN) compares `False`
and contributes 0, so rows near the end default to no-failure for the missing
offsets.  The trailing `.fillna(0)` is a no-op since the boolean comparison
never yields null. -/
theorem createTarget_failure_rule (f : Frame) (xs : List Cell)
    (h : f.getCol "faulty_lights_count" = some xs) :
    (createTarget f "failure").getCol "target_failure" =
      some (rmap xs.length fun i =>
        some (.q (if gtZeroCell (xs.getD (i + 6) none) || gtZeroCell (xs.getD (i + 3) none)
                  then 1 else 0))) := by
  unfold createTarget
  rw [if_pos rfl]
  simp only [h]
  rw [getCol_setCol_self]
  congr 1
  unfold targetFailureSeries seriesLead
  simp only [rmap, List.map_map, rmap_length, List.zipWith_map, List.zipWith_same,
    fillnaCells]
  apply List.map_congr_left
  intro i _
  simp [boolToCell, Function.comp]

def c5Labels : List ℚ := [0, 0, 0, 1, 0, 0, 0]

def c5Frame : Frame :=
  ⟨List.range 7, [("faulty_lights_count", qcol 7 fun i => c5Labels.getD i 0)]⟩

theorem createTarget_failure_rule_witness :
    c5Frame.getCol "faulty_lights_count" = some (qcol 7 fun i => c5Labels.getD i 0) ∧
      (createTarget c5Frame "failure").getCol "target_failure" =
        some (rmap (qcol 7 fun i => c5Labels.getD i 0).length fun i =>
          some (.q (if gtZeroCell ((qcol 7 fun j => c5Labels.getD j 0).getD (i + 6) none) ||
                      gtZeroCell ((qcol 7 fun j => c5Labels.getD j 0).getD (i + 3) none)
                    then 1 else 0))) :=
  ⟨rfl, createTarget_failure_rule c5Frame (qcol 7 fun i => c5Labels.getD i 0) rfl⟩

/-! ## C6: determinism of `create_features` -/

/-- C6: `create_features` is a pure function of the input row sequence and
the window/lag parameters.  The frame's incoming index labels — the only
trace of whether it was sliced from a bulk training query or assembled as an
online context window over the same rows — never influence the output: the
sort permutation is computed from the timestamp column alone and
`reset_index(drop=True)` discards the labels before any feature is computed.
Two well-formed frames with identical columns (hence identical rows in the
same order) produce identical outputs; repeated calls on the same frame are
trivially identical since the function is stateless. -/
theorem createFeatures_deterministic (W : ℕ) (t : Option String) (f1 f2 : Frame)
    (h1 : f1.WF) (h2 : f2.WF) (hc : f1.cols = f2.cols) (hne : f1.cols ≠ []) :
    createFeatures W f1 t = createFeatures W f2 t := by
  obtain ⟨c, rest, hcons⟩ : ∃ c rest, f1.cols = c :: rest := by
    cases hcl : f1.cols with
    | nil => exact absurd hcl hne
    | cons c rest => exact ⟨c, rest, rfl⟩
  have hmem1 : c ∈ f1.cols := by rw [hcons]; exact List.mem_cons_self _ _
  have hn : f1.index.length = f2.index.length := by
    rw [← h1 c hmem1, ← h2 c (hc ▸ hmem1)]
  by_cases he : f1.nRows = 0
  · have hi1 : f1.index = [] := List.eq_nil_of_length_eq_zero he
    have hi2 : f2.index = [] := List.eq_nil_of_length_eq_zero (by rw [← hn]; exact he)
    have hf : f1 = f2 := by cases f1; cases f2; simp_all
    rw [hf]
  · have hl1 : f1.index.length ≠ 0 := he
    have hl2 : f2.index.length ≠ 0 := by rw [← hn]; exact hl1
    have he1 : f1.isEmpty = false := by
      unfold Frame.isEmpty Frame.nRows
      rw [hcons]
      simp [hl1]
    have he2 : f2.isEmpty = false := by
      have hc2 : f2.cols = c :: rest := hc ▸ hcons
      unfold Frame.isEmpty Frame.nRows
      rw [hc2]
      simp [hl2]
    unfold createFeatures
    rw [he1, he2]
    simp only [Bool.false_eq_true, if_false]
    have hts : f1.getCol "timestamp" = f2.getCol "timestamp" := by
      unfold Frame.getCol; rw [hc]
    unfold sortValuesTs
    cases hts1 : f1.getCol "timestamp" with
    | none =>
        rw [← hts, hts1]
    | some ts =>
        rw [← hts, hts1]
        simp only [Except.map]
        refine congrArg Except.ok (congrArg (featurePipe W t) ?_)
        unfold Frame.resetIndexDrop Frame.nRows
        simp only [List.length_map, List.length_insertionSort, List.length_range]
        rw [hc, hn]

instance (f : Frame) : Decidable f.WF := by unfold Frame.WF; infer_instance

def c6ColsShared : List (String × List Cell) :=
  [("timestamp", qcol 2 fun i => (i : ℚ)), ("faulty_lights_count", qcol 2 fun _ => 0)]

theorem createFeatures_deterministic_witness :
    (Frame.mk [7, 3] c6ColsShared).WF ∧ (Frame.mk [0, 1] c6ColsShared).WF ∧
      (Frame.mk [7, 3] c6ColsShared).cols = (Frame.mk [0, 1] c6ColsShared).cols ∧
      (Frame.mk [7, 3] c6ColsShared).cols ≠ [] ∧
      createFeatures 10 (Frame.mk [7, 3] c6ColsShared) none =
        createFeatures 10 (Frame.mk [0, 1] c6ColsShared) none :=
  ⟨by decide, by decide, rfl, by decide,
   createFeatures_deterministic 10 none (Frame.mk [7, 3] c6ColsShared)
     (Frame.mk [0, 1] c6ColsShared) (by decide) (by decide) rfl (by decide)⟩

/-! ## C8: the synthetic-label fallback (code bug) -/

/-- A non-empty training frame with no `faulty_lights_count` column: feature
engineering succeeds but produces no `target_failure` column, which is
exactly the situation the synthetic-label fallback exists for. -/
def c8Frame : Frame :=
  ⟨List.range 2, [("timestamp", qcol 2 fun i => i), ("ambient_light", qcol 2 fun _ => 100)]⟩

/-- C8 (code bug): whenever failure-model training reaches the fallback
branch (no `target_failure` after feature engineering), the fallback itself
evaluates `df['faulty_lights_count'] > 0` — but `target_failure` is absent
precisely when `faulty_lights_count` was absent from the frame, so the read
raises an uncaught `KeyError` and the run aborts (with nothing persisted)
instead of completing with the synthetic label.  The second conjunct shows
the feature frame indeed had no usable label column, i.e. the fallback
branch was the one taken. -/
theorem trainFailure_fallback_keyerror :
    trainFailure c8Frame = .raised "faulty_lights_count" [] ∧
      (createFeatures 10 c8Frame (some "failure")).map (fun f => f.hasCol "target_failure") =
        .ok false := by
  decide

/-! ## C1: schema reindexing at inference (code bug) -/

def c1Sensor : List (String × Cell) :=
  [("timestamp", some (.q 0)), ("ambient_light", some (.q 100)),
   ("active_lights_count", some (.q 4)), ("faulty_lights_count", some (.q 0))]

def c1Model : RFModel := ⟨fun _ => 0, fun _ => [1]⟩

/-- A computed feature row holding columns a, c, d — the schema round-trip
example of the spec (schema [a,b,c]). -/
def c1AcdFrame : Frame :=
  ⟨[0], [("a", [some (.q 1)]), ("c", [some (.q 3)]), ("d", [some (.q 4)])]⟩

/-- C1 (code bug): the inference path extracts the model input with
`df[self.failure_features]`, which raises `KeyError` when any stored schema
column is absent from the computed frame; the exception is caught and the
prediction for that kind becomes a structured error — it is NOT the
zero-filled reindexing the spec describes, and a missing column does make
the prediction for that kind fail.  First conjunct: end-to-end, a reading
without light data against a schema expecting `mean_light_ldr` yields the
KeyError error object.  Second: the selection itself errors on the spec's
[a,b,c]/[a,c,d] example.  Third: the spec-modelled reindex on the same
example yields [a, 0, c] — what the claim (and the trailing `.fillna(0)` in
the source) intended. -/
theorem predict_missing_schema_column_is_error :
    predictFailure c1Sensor none (some c1Model) (some ["ambient_light", "mean_light_ldr"]) =
      .errObj "[mean_light_ldr] not in index" ∧
      selectCols ["a", "b", "c"] c1AcdFrame = .error "[b] not in index" ∧
      reindexRowSpec ["a", "b", "c"] c1AcdFrame 0 = [.q 1, .q 0, .q 3] := by
  refine ⟨?_, by decide, by decide⟩
  decide

/-! ## C2: which rows the pruning step drops -/

/-- An 8-row frame whose faulty-light count is identically zero — the normal
healthy-device telemetry.  `faulty_lights_count_pct_change` is then 0/0 = NaN
at every row past the first, so `dropna` removes every row, not just the
first 6. -/
def c2Frame : Frame :=
  coreFrame 8 (fun i => [0, 1, 2, 3, 4, 5, 6, 7].getD i 0)
    (fun i => [10, 11, 12, 13, 14, 15, 16, 17].getD i 0) (fun _ => 1) (fun _ => 0)

set_option maxRecDepth 100000 in
/-- C2 counterexample: on an 8-row frame (faulty count identically 0,
distinct timestamps, all cells non-null) the pruning of `create_features`
removes ALL 8 rows — rows 6 and 7 are dropped although every lag and diff
cell at those rows is non-null, contradicting both "drops exactly those rows
that contain a null in a lag or diff column and no other rows" and "this
removes precisely the first 6 rows ... every later row of the input
survives". -/
theorem createFeatures_prunes_beyond_lag_rows_cex :
    (createFeatures 10 c2Frame none).map Frame.index = .ok [] ∧
      c2Frame.nRows = 8 := by
  decide

/-! ## C4: partial rolling windows -/

/-- The spec's partial-window example: ambient light [10, 20, 30, 40],
window size 3. -/
def c4Frame : Frame :=
  coreFrame 4 (fun i => [0, 1, 2, 3].getD i 0) (fun i => [10, 20, 30, 40].getD i 0)
    (fun _ => 1) (fun _ => 1)

/-- C4 counterexample: on the spec's own example ([10,20,30,40], window 3)
the rolling-mean column produced by `create_features` is empty — the frame is
shorter than the maximum lag, so every row is pruned — not [10, 15, 20, 30];
moreover (second conjunct) at the rolling step itself the rolling-std column
is null at the first row (a single observation has no sample std), so not
every rolling statistic is non-null at every row. -/
theorem rolling_example_pruned_from_output_cex :
    (createFeatures 3 c4Frame none).map (fun g => g.getCol "ambient_light_rolling_mean") =
      .ok (some []) ∧
      ((addRollingFeatures 3 c4Frame).getCol "ambient_light_rolling_std").map
        (fun s => s.getD 0 none) = some none := by
  decide

/-! ## Lemmas about rolling windows and derived series over finite columns -/

theorem range_getD (n i : ℕ) (h : i < n) : (List.range n).getD i 0 = i := by
  simp [List.getD_eq_getElem?_getD, List.getElem?_range h]

theorem reduceOption_map_some {α β : Type} (l : List α) (g : α → β) :
    (l.map fun a => some (g a)).reduceOption = l.map g := by
  induction l with
  | nil => rfl
  | cons a t ih => simp [List.reduceOption_cons_of_some, ih]

theorem windowAt_qcol (W n : ℕ) (v : ℕ → ℚ) (i : ℕ) (h : i < n) :
    ∃ rl : List ℚ, windowAt W (qcol n v) i = rl.map PVal.q ∧
      rl.length = min W (i + 1) := by
  refine ⟨((((List.range n).take (i + 1)).drop (i + 1 - W)).map v), ?_, ?_⟩
  · unfold windowAt qcol rmap
    rw [← List.map_take, ← List.map_drop]
    have : ((((List.range n).take (i + 1)).drop (i + 1 - W)).map
        fun j => some (PVal.q (v j))).reduceOption =
        (((List.range n).take (i + 1)).drop (i + 1 - W)).map fun j => PVal.q (v j) :=
      reduceOption_map_some _ _
    rw [this]
    simp only [List.map_map]
    rfl
  · simp [List.length_drop, List.length_take]
    omega

theorem sumP_map_q (rl : List ℚ) : sumP (rl.map PVal.q) = some (.q rl.sum) := by
  induction rl with
  | nil => simp [sumP]
  | cons a t ih => simp [sumP, ih, PVal.add]

theorem ratsOf_map_q (rl : List ℚ) : ratsOf (rl.map PVal.q) = some rl := by
  induction rl with
  | nil => rfl
  | cons a t ih => simp [ratsOf, ih]

theorem meanCell_map_q (rl : List ℚ) (h : rl ≠ []) :
    ∃ m : ℚ, meanCell (rl.map PVal.q) = some (.q m) := by
  refine ⟨rl.sum / (rl.length : ℚ), ?_⟩
  have hlen : ((rl.map PVal.q).isEmpty) = false := by
    simp [List.isEmpty_eq_false, h]
  have hq : ((rl.length : ℚ)) ≠ 0 := by
    have : rl.length ≠ 0 := fun h0 => h (List.eq_nil_of_length_eq_zero h0)
    exact_mod_cast this
  simp [meanCell, hlen, sumP_map_q, PVal.div, hq]

theorem minCell_map_q (rl : List ℚ) (h : rl ≠ []) :
    ∃ m : ℚ, minCell (rl.map PVal.q) = some (.q m) := by
  induction rl with
  | nil => exact absurd rfl h
  | cons a t ih =>
      cases t with
      | nil => exact ⟨a, rfl⟩
      | cons b u =>
          obtain ⟨m, hm⟩ := ih (by simp)
          refine ⟨if (PVal.q a).le (.q m) then a else m, ?_⟩
          simp only [List.map_cons, minCell] at hm ⊢
          rw [hm]
          unfold PVal.minv
          by_cases hle : (PVal.q a).le (.q m) = true

          · simp [hle]
          · simp [Bool.not_eq_true] at hle
            simp [hle]

theorem maxCell_map_q (rl : List ℚ) (h : rl ≠ []) :
    ∃ m : ℚ, maxCell (rl.map PVal.q) = some (.q m) := by
  induction rl with
  | nil => exact absurd rfl h
  | cons a t ih =>
      cases t with
      | nil => exact ⟨a, rfl⟩
      | cons b u =>
          obtain ⟨m, hm⟩ := ih (by simp)
          refine ⟨if (PVal.q a).le (.q m) then m else a, ?_⟩
          simp only [List.map_cons, maxCell] at hm ⊢
          rw [hm]
          unfold PVal.maxv
          by_cases hle : (PVal.q a).le (.q m) = true
          · simp [hle]
          · simp [Bool.not_eq_true] at hle
            simp [hle]

theorem stdCell_map_q (rl : List ℚ) (h : 2 ≤ rl.length) :
    ∃ s : ℚ, stdCell (rl.map PVal.q) = some (.q s) := by
  refine ⟨sqrtQ (sampleVar rl), ?_⟩
  have hlt : ¬((rl.map PVal.q).length < 2) := by simp; omega
  simp [stdCell, hlt, ratsOf_map_q]
  omega

theorem stdCell_short (obs : List PVal) (h : obs.length < 2) : stdCell obs = none := by
  simp [stdCell, h]

theorem rollingMean_qcol_isSome (W n : ℕ) (v : ℕ → ℚ) (i : ℕ) (hW : 1 ≤ W) (h : i < n) :
    ((rollingMean W (qcol n v)).getD i none).isSome = true := by
  unfold rollingMean
  rw [rmap_getD _ _ i none (by rw [qcol_length]; exact h)]
  obtain ⟨rl, hw, hl⟩ := windowAt_qcol W n v i h
  have hne : rl ≠ [] := by
    intro h0
    rw [h0] at hl
    simp at hl
    omega
  obtain ⟨m, hm⟩ := meanCell_map_q rl hne
  rw [hw, hm]
  rfl

theorem rollingMin_qcol_isSome (W n : ℕ) (v : ℕ → ℚ) (i : ℕ) (hW : 1 ≤ W) (h : i < n) :
    ((rollingMin W (qcol n v)).getD i none).isSome = true := by
  unfold rollingMin
  rw [rmap_getD _ _ i none (by rw [qcol_length]; exact h)]
  obtain ⟨rl, hw, hl⟩ := windowAt_qcol W n v i h
  have hne : rl ≠ [] := by
    intro h0
    rw [h0] at hl
    simp at hl
    omega
  obtain ⟨m, hm⟩ := minCell_map_q rl hne
  rw [hw, hm]
  rfl

theorem rollingMax_qcol_isSome (W n : ℕ) (v : ℕ → ℚ) (i : ℕ) (hW : 1 ≤ W) (h : i < n) :
    ((rollingMax W (qcol n v)).getD i none).isSome = true := by
  unfold rollingMax
  rw [rmap_getD _ _ i none (by rw [qcol_length]; exact h)]
  obtain ⟨rl, hw, hl⟩ := windowAt_qcol W n v i h
  have hne : rl ≠ [] := by
    intro h0
    rw [h0] at hl
    simp at hl
    omega
  obtain ⟨m, hm⟩ := maxCell_map_q rl hne
  rw [hw, hm]
  rfl

theorem rollingStd_qcol_isSome_eq (W n : ℕ) (v : ℕ → ℚ) (i : ℕ) (hW : 2 ≤ W) (h : i < n) :
    ((rollingStd W (qcol n v)).getD i none).isSome = decide (1 ≤ i) := by
  unfold rollingStd
  rw [rmap_getD _ _ i none (by rw [qcol_length]; exact h)]
  obtain ⟨rl, hw, hl⟩ := windowAt_qcol W n v i h
  rw [hw]
  by_cases hi : 1 ≤ i
  · obtain ⟨s, hs⟩ := stdCell_map_q rl (by omega)
    rw [hs]
    simp [hi]
  · have hi0 : i = 0 := by omega
    subst hi0
    have hsh : (rl.map PVal.q).length < 2 := by
      rw [List.length_map, hl]
      omega
    rw [stdCell_short _ hsh]
    simp

theorem map_qcol_getD (n : ℕ) (v : ℕ → ℚ) (g : Cell → Cell) (i : ℕ) (h : i < n) :
    ((qcol n v).map g).getD i none = g (some (.q (v i))) := by
  unfold qcol rmap
  rw [List.map_map]
  exact range_map_getD n _ i none h

theorem seriesDiff_qcol_getD (n : ℕ) (v : ℕ → ℚ) (i : ℕ) (h : i < n) :
    (seriesDiff (qcol n v)).getD i none =
      if i = 0 then none else some (.q (v i - v (i - 1))) := by
  unfold seriesDiff
  rw [rmap_getD _ _ i none (by rw [qcol_length]; exact h)]
  by_cases hi : i = 0
  · simp [hi]
  · rw [if_neg hi, if_neg hi, qcol_getD n v i h, qcol_getD n v (i - 1) (by omega)]
    rfl

theorem ffill_all_some (l : List Cell) (hl : ∀ x ∈ l, x.isSome = true) :
    ∀ p, ffillAux p l = l := by
  induction l with
  | nil => intro p; rfl
  | cons a t ih =>
      intro p
      cases a with
      | none =>
          have := hl none (List.mem_cons_self _ _)
          simp at this
      | some x =>
          simp only [ffillAux]
          rw [ih fun y hy => hl y (List.mem_cons_of_mem _ hy)]

theorem ffill_qcol (n : ℕ) (v : ℕ → ℚ) : ffill (qcol n v) = qcol n v := by
  unfold ffill
  apply ffill_all_some
  intro x hx
  unfold qcol rmap at hx
  obtain ⟨j, _, rfl⟩ := List.mem_map.mp hx
  rfl

theorem seriesPct_qcol_getD (n : ℕ) (v : ℕ → ℚ) (i : ℕ) (h : i < n) :
    (seriesPct (qcol n v)).getD i none =
      if i = 0 then none
      else if v (i - 1) = 0 then
        (if 0 < v i then some .pinf else if v i < 0 then some .ninf else none)
      else some (.q (v i / v (i - 1) - 1)) := by
  unfold seriesPct
  rw [ffill_qcol]
  rw [rmap_getD _ _ i none (by rw [qcol_length]; exact h)]
  by_cases hi : i = 0
  · simp [hi]
  · rw [if_neg hi, if_neg hi, qcol_getD n v i h, qcol_getD n v (i - 1) (by omega)]
    by_cases hb : v (i - 1) = 0
    · rw [if_pos hb]
      rcases lt_trichotomy (v i) 0 with hv | hv | hv
      · have h1 : ¬(0 < v i) := by linarith
        simp [PVal.div, hb, hv, h1, PVal.sub]
      · simp [PVal.div, hb, hv]
      · simp [PVal.div, hb, hv, not_lt_of_lt hv, PVal.sub]
    · rw [if_neg hb]
      simp [PVal.div, hb, PVal.sub]

theorem seriesLag_qcol_getD (k n : ℕ) (v : ℕ → ℚ) (i : ℕ) (h : i < n) :
    (seriesLag k (qcol n v)).getD i none =
      if i < k then none else some (.q (v (i - k))) := by
  unfold seriesLag
  rw [rmap_getD _ _ i none (by rw [qcol_length]; exact h)]
  by_cases hik : i < k
  · simp [hik]
  · rw [if_neg hik, if_neg hik, qcol_getD n v (i - k) (by omega)]

theorem colMin_qcol (n : ℕ) (v : ℕ → ℚ) (h : 0 < n) :
    ∃ m : ℚ, colMin (qcol n v) = some (.q m) := by
  unfold colMin qcol rmap
  have hred : (((List.range n).map fun j => some (PVal.q (v j)))).reduceOption =
      ((List.range n).map v).map PVal.q := by
    rw [reduceOption_map_some]
    rw [List.map_map]
    rfl
  rw [hred]
  apply minCell_map_q
  simp [List.isEmpty_eq_false]
  omega

theorem timeSinceStart_qcol_isSome (n : ℕ) (v : ℕ → ℚ) (i : ℕ) (h : i < n) :
    ((timeSinceStart (qcol n v)).getD i none).isSome = true := by
  unfold timeSinceStart
  rw [rmap_getD _ _ i none (by rw [qcol_length]; exact h)]
  obtain ⟨m, hm⟩ := colMin_qcol n v (by omega)
  rw [qcol_getD n v i h, hm]
  simp [PVal.sub, PVal.div]

/-! ## C4 (amended): partial windows at the rolling step -/

/-- Unfolding one `addRollingFor` pass when the source column is present. -/
theorem addRollingFor_some (W : ℕ) (f : Frame) (c : String) (xs : List Cell)
    (h : f.getCol c = some xs) :
    addRollingFor W f c =
      (((((f.setCol (c ++ "_rolling_mean") (rollingMean W xs)).setCol
          (c ++ "_rolling_std") (rollingStd W xs)).setCol
          (c ++ "_rolling_min") (rollingMin W xs)).setCol
          (c ++ "_rolling_max") (rollingMax W xs)).setCol
          (c ++ "_diff") (seriesDiff xs)).setCol (c ++ "_pct_change") (seriesPct xs) := by
  unfold addRollingFor
  rw [h]

/-- The rolling step applied to a core frame: the four source columns
followed by the six derived series for each of the three rolled columns, in
program order. -/
theorem addRollingFeatures_coreFrame (W n : ℕ) (ts amb act fau : ℕ → ℚ) :
    addRollingFeatures W (coreFrame n ts amb act fau) = Frame.mk (List.range n)
      [("timestamp", qcol n ts), ("ambient_light", qcol n amb),
       ("active_lights_count", qcol n act), ("faulty_lights_count", qcol n fau),
       ("ambient_light_rolling_mean", rollingMean W (qcol n amb)),
       ("ambient_light_rolling_std", rollingStd W (qcol n amb)),
       ("ambient_light_rolling_min", rollingMin W (qcol n amb)),
       ("ambient_light_rolling_max", rollingMax W (qcol n amb)),
       ("ambient_light_diff", seriesDiff (qcol n amb)),
       ("ambient_light_pct_change", seriesPct (qcol n amb)),
       ("active_lights_count_rolling_mean", rollingMean W (qcol n act)),
       ("active_lights_count_rolling_std", rollingStd W (qcol n act)),
       ("active_lights_count_rolling_min", rollingMin W (qcol n act)),
       ("active_lights_count_rolling_max", rollingMax W (qcol n act)),
       ("active_lights_count_diff", seriesDiff (qcol n act)),
       ("active_lights_count_pct_change", seriesPct (qcol n act)),
       ("faulty_lights_count_rolling_mean", rollingMean W (qcol n fau)),
       ("faulty_lights_count_rolling_std", rollingStd W (qcol n fau)),
       ("faulty_lights_count_rolling_min", rollingMin W (qcol n fau)),
       ("faulty_lights_count_rolling_max", rollingMax W (qcol n fau)),
       ("faulty_lights_count_diff", seriesDiff (qcol n fau)),
       ("faulty_lights_count_pct_change", seriesPct (qcol n fau))] := by
  have h1 : addRollingFor W (coreFrame n ts amb act fau) "ambient_light" =
      Frame.mk (List.range n)
        [("timestamp", qcol n ts), ("ambient_light", qcol n amb),
         ("active_lights_count", qcol n act), ("faulty_lights_count", qcol n fau),
         ("ambient_light_rolling_mean", rollingMean W (qcol n amb)),
         ("ambient_light_rolling_std", rollingStd W (qcol n amb)),
         ("ambient_light_rolling_min", rollingMin W (qcol n amb)),
         ("ambient_light_rolling_max", rollingMax W (qcol n amb)),
         ("ambient_light_diff", seriesDiff (qcol n amb)),
         ("ambient_light_pct_change", seriesPct (qcol n amb))] := by
    refine (addRollingFor_some W _ "ambient_light" (qcol n amb) ?_).trans ?_
    · rfl
    · simp [coreFrame, Frame.setCol, setColAux]
  have h2 : addRollingFor W (addRollingFor W (coreFrame n ts amb act fau) "ambient_light")
      "active_lights_count" = Frame.mk (List.range n)
        [("timestamp", qcol n ts), ("ambient_light", qcol n amb),
         ("active_lights_count", qcol n act), ("faulty_lights_count", qcol n fau),
         ("ambient_light_rolling_mean", rollingMean W (qcol n amb)),
         ("ambient_light_rolling_std", rollingStd W (qcol n amb)),
         ("ambient_light_rolling_min", rollingMin W (qcol n amb)),
         ("ambient_light_rolling_max", rollingMax W (qcol n amb)),
         ("ambient_light_diff", seriesDiff (qcol n amb)),
         ("ambient_light_pct_change", seriesPct (qcol n amb)),
         ("active_lights_count_rolling_mean", rollingMean W (qcol n act)),
         ("active_lights_count_rolling_std", rollingStd W (qcol n act)),
         ("active_lights_count_rolling_min", rollingMin W (qcol n act)),
         ("active_lights_count_rolling_max", rollingMax W (qcol n act)),
         ("active_lights_count_diff", seriesDiff (qcol n act)),
         ("active_lights_count_pct_change", seriesPct (qcol n act))] := by
    rw [h1]
    refine (addRollingFor_some W _ "active_lights_count" (qcol n act) ?_).trans ?_
    · rfl
    · simp [Frame.setCol, setColAux]
  unfold addRollingFeatures rollNames
  simp only [List.foldl_cons, List.foldl_nil]
  rw [h2]
  refine (addRollingFor_some W _ "faulty_lights_count" (qcol n fau) ?_).trans ?_
  · rfl
  · simp [Frame.setCol, setColAux]

/-- A rolling mean/min/max column over `n` rows that is non-null at every
row. -/
def rollMMOk (g : Frame) (name : String) (n : ℕ) : Prop :=
  ∃ col, g.getCol name = some col ∧ col.length = n ∧
    ∀ i, i < n → (col.getD i none).isSome = true

/-- A rolling std column over `n` rows: null at the first row, non-null at
every later row. -/
def rollStdOk (g : Frame) (name : String) (n : ℕ) : Prop :=
  ∃ col, g.getCol name = some col ∧ col.length = n ∧
    (0 < n → col.getD 0 none = none) ∧
    ∀ i, 1 ≤ i → i < n → (col.getD i none).isSome = true

/-- C4 (amended): at the rolling step, for each of the three rolled source
columns of a fully-populated core frame, the rolling mean/min/max columns
(window `W ≥ 2`, `min_periods=1`) are non-null at every row — partial windows
are computed over however many samples are available — while the rolling STD
column is null at the first row (the sample std of a single observation is
NaN) and non-null at every later row; and on the spec's example the rolling
mean of ambient light [10,20,30,40] with window 3 is [10,15,20,30].  (The
pruning that `create_features` applies afterwards is what removes these rows
from the final output; see the counterexample.) -/
theorem rolling_stats_nullness (W n : ℕ) (ts amb act fau : ℕ → ℚ) (hW : 2 ≤ W) :
    (rollMMOk (addRollingFeatures W (coreFrame n ts amb act fau))
        "ambient_light_rolling_mean" n ∧
      rollMMOk (addRollingFeatures W (coreFrame n ts amb act fau))
        "ambient_light_rolling_min" n ∧
      rollMMOk (addRollingFeatures W (coreFrame n ts amb act fau))
        "ambient_light_rolling_max" n ∧
      rollStdOk (addRollingFeatures W (coreFrame n ts amb act fau))
        "ambient_light_rolling_std" n) ∧
    (rollMMOk (addRollingFeatures W (coreFrame n ts amb act fau))
        "active_lights_count_rolling_mean" n ∧
      rollMMOk (addRollingFeatures W (coreFrame n ts amb act fau))
        "active_lights_count_rolling_min" n ∧
      rollMMOk (addRollingFeatures W (coreFrame n ts amb act fau))
        "active_lights_count_rolling_max" n ∧
      rollStdOk (addRollingFeatures W (coreFrame n ts amb act fau))
        "active_lights_count_rolling_std" n) ∧
    (rollMMOk (addRollingFeatures W (coreFrame n ts amb act fau))
        "faulty_lights_count_rolling_mean" n ∧
      rollMMOk (addRollingFeatures W (coreFrame n ts amb act fau))
        "faulty_lights_count_rolling_min" n ∧
      rollMMOk (addRollingFeatures W (coreFrame n ts amb act fau))
        "faulty_lights_count_rolling_max" n ∧
      rollStdOk (addRollingFeatures W (coreFrame n ts amb act fau))
        "faulty_lights_count_rolling_std" n) ∧
    rollingMean 3 (qcol 4 fun i => [10, 20, 30, 40].getD i 0) =
      qcol 4 fun i => [10, 15, 20, 30].getD i 0 := by
  have hW1 : 1 ≤ W := by omega
  rw [addRollingFeatures_coreFrame]
  have hmm : ∀ v : ℕ → ℚ, (rollingMean W (qcol n v)).length = n ∧
      ∀ i, i < n → ((rollingMean W (qcol n v)).getD i none).isSome = true := by
    intro v
    refine ⟨by simp [rollingMean, rmap_length, qcol_length], ?_⟩
    intro i hi
    exact rollingMean_qcol_isSome W n v i hW1 hi
  have hmn : ∀ v : ℕ → ℚ, (rollingMin W (qcol n v)).length = n ∧
      ∀ i, i < n → ((rollingMin W (qcol n v)).getD i none).isSome = true := by
    intro v
    refine ⟨by simp [rollingMin, rmap_length, qcol_length], ?_⟩
    intro i hi
    exact rollingMin_qcol_isSome W n v i hW1 hi
  have hmx : ∀ v : ℕ → ℚ, (rollingMax W (qcol n v)).length = n ∧
      ∀ i, i < n → ((rollingMax W (qcol n v)).getD i none).isSome = true := by
    intro v
    refine ⟨by simp [rollingMax, rmap_length, qcol_length], ?_⟩
    intro i hi
    exact rollingMax_qcol_isSome W n v i hW1 hi
  have hsd : ∀ v : ℕ → ℚ, (rollingStd W (qcol n v)).length = n ∧
      (0 < n → (rollingStd W (qcol n v)).getD 0 none = none) ∧
      ∀ i, 1 ≤ i → i < n → ((rollingStd W (qcol n v)).getD i none).isSome = true := by
    intro v
    refine ⟨by simp [rollingStd, rmap_length, qcol_length], ?_, ?_⟩
    · intro hn
      cases hcell : (rollingStd W (qcol n v)).getD 0 none with
      | none => rfl
      | some x =>
          have h0 := rollingStd_qcol_isSome_eq W n v 0 hW hn
          rw [hcell] at h0
          simp at h0
    · intro i h1 h2
      rw [rollingStd_qcol_isSome_eq W n v i hW h2]
      simp [h1]
  refine ⟨⟨⟨_, rfl, (hmm amb).1, (hmm amb).2⟩, ⟨_, rfl, (hmn amb).1, (hmn amb).2⟩,
      ⟨_, rfl, (hmx amb).1, (hmx amb).2⟩,
      ⟨_, rfl, (hsd amb).1, (hsd amb).2.1, (hsd amb).2.2⟩⟩,
    ⟨⟨_, rfl, (hmm act).1, (hmm act).2⟩, ⟨_, rfl, (hmn act).1, (hmn act).2⟩,
      ⟨_, rfl, (hmx act).1, (hmx act).2⟩,
      ⟨_, rfl, (hsd act).1, (hsd act).2.1, (hsd act).2.2⟩⟩,
    ⟨⟨_, rfl, (hmm fau).1, (hmm fau).2⟩, ⟨_, rfl, (hmn fau).1, (hmn fau).2⟩,
      ⟨_, rfl, (hmx fau).1, (hmx fau).2⟩,
      ⟨_, rfl, (hsd fau).1, (hsd fau).2.1, (hsd fau).2.2⟩⟩, ?_⟩
  norm_num [rollingMean, qcol, rmap, List.range_succ, windowAt, meanCell, sumP,
    PVal.div, PVal.add, List.reduceOption, List.filterMap_cons, List.filterMap_nil]
  simp

theorem rolling_stats_nullness_witness :
    2 ≤ 3 ∧
      rollMMOk (addRollingFeatures 3 (coreFrame 4 (fun i => [0, 1, 2, 3].getD i 0)
          (fun i => [10, 20, 30, 40].getD i 0) (fun _ => 1) (fun _ => 1)))
        "ambient_light_rolling_mean" 4 ∧
      rollStdOk (addRollingFeatures 3 (coreFrame 4 (fun i => [0, 1, 2, 3].getD i 0)
          (fun i => [10, 20, 30, 40].getD i 0) (fun _ => 1) (fun _ => 1)))
        "ambient_light_rolling_std" 4 :=
  ⟨by decide,
   (rolling_stats_nullness 3 4 (fun i => [0, 1, 2, 3].getD i 0)
      (fun i => [10, 20, 30, 40].getD i 0) (fun _ => 1) (fun _ => 1) (by decide)).1.1,
   (rolling_stats_nullness 3 4 (fun i => [0, 1, 2, 3].getD i 0)
      (fun i => [10, 20, 30, 40].getD i 0) (fun _ => 1) (fun _ => 1) (by decide)).1.2.2.2⟩

/-! ## C2 (amended): exactly which input rows survive `create_features` -/

theorem seriesDiff_qcol_isSome_eq (n : ℕ) (v : ℕ → ℚ) (i : ℕ) (h : i < n) :
    ((seriesDiff (qcol n v)).getD i none).isSome = decide (1 ≤ i) := by
  rw [seriesDiff_qcol_getD n v i h]
  by_cases hi : i = 0
  · simp [hi]
  · have : 1 ≤ i := by omega
    simp [hi, this]

theorem seriesPct_qcol_isSome_eq (n : ℕ) (v : ℕ → ℚ) (i : ℕ) (h : i < n) :
    ((seriesPct (qcol n v)).getD i none).isSome =
      (decide (1 ≤ i) && !(decide (v (i - 1) = 0) && decide (v i = 0))) := by
  rw [seriesPct_qcol_getD n v i h]
  by_cases hi : i = 0
  · simp [hi]
  · have h1 : 1 ≤ i := by omega
    by_cases hb : v (i - 1) = 0
    · rcases lt_trichotomy (v i) 0 with hv | hv | hv
      · have hne : v i ≠ 0 := by linarith
        have hng : ¬(0 < v i) := by linarith
        simp [hi, hb, h1, hv, hne, hng]
      · simp [hi, hb, h1, hv]
      · have hne : v i ≠ 0 := by linarith
        simp [hi, hb, h1, hv, hne]
    · simp [hi, hb, h1]

theorem seriesLag_qcol_isSome_eq (k n : ℕ) (v : ℕ → ℚ) (i : ℕ) (h : i < n) :
    ((seriesLag k (qcol n v)).getD i none).isSome = decide (k ≤ i) := by
  rw [seriesLag_qcol_getD k n v i h]
  by_cases hik : i < k
  · have : ¬(k ≤ i) := by omega
    simp [hik, this]
  · have : k ≤ i := by omega
    simp [hik, this]

theorem log1pCell_isSome (x : ℚ) (h : -1 < x) :
    (log1pCell (some (.q x))).isSome = true := by
  have h1 : ¬(x < -1) := by linarith
  have h2 : x ≠ -1 := by linarith
  simp [log1pCell, h1, h2]

theorem range_map_getD_self (n : ℕ) :
    ((List.range n).map fun i => (List.range n).getD i 0) = List.range n := by
  have h : ((List.range n).map fun i => (List.range n).getD i 0) =
      (List.range n).map fun i => i := by
    apply List.map_congr_left
    intro a ha
    exact range_getD n a (List.mem_range.mp ha)
  rw [h, List.map_id']

theorem range_map_qcol_getD (n : ℕ) (v : ℕ → ℚ) :
    ((List.range n).map fun i => (qcol n v).getD i none) = qcol n v := by
  have h : ((List.range n).map fun i => (qcol n v).getD i none) =
      (List.range n).map fun i => some (PVal.q (v i)) := by
    apply List.map_congr_left
    intro a ha
    exact qcol_getD n v a (List.mem_range.mp ha)
  rw [h]
  rfl

/-- Sorting a core frame whose timestamps are strictly increasing is the
identity (the sort permutation is already sorted). -/
theorem sortValuesTs_coreFrame (n : ℕ) (ts amb act fau : ℕ → ℚ)
    (hts : ∀ j, j < n → ∀ i, i < j → ts i < ts j) :
    sortValuesTs (coreFrame n ts amb act fau) = .ok (coreFrame n ts amb act fau) := by
  have hsorted : List.Sorted
      (fun i j : ℕ => cellKeyLE ((qcol n ts).getD i none) ((qcol n ts).getD j none) = true)
      (List.range n) := by
    apply List.Pairwise.imp_of_mem ?_ (List.pairwise_lt_range n)
    intro a b ha hb hab
    rw [List.mem_range] at ha hb
    rw [qcol_getD n ts a ha, qcol_getD n ts b hb]
    unfold cellKeyLE PVal.le
    simp only [decide_eq_true_eq]
    exact le_of_lt (hts b hb a hab)
  unfold sortValuesTs
  have hget : (coreFrame n ts amb act fau).getCol "timestamp" = some (qcol n ts) := rfl
  have hrows : (coreFrame n ts amb act fau).nRows = n := by
    simp [coreFrame, Frame.nRows]
  rw [hget, hrows]
  split
  · next heq => exact absurd heq (by simp)
  · next ts1 heq =>
      have h1 : qcol n ts = ts1 := by injection heq
      subst h1
      rw [List.Sorted.insertionSort_eq hsorted]
      unfold coreFrame
      simp only [Except.ok.injEq, Frame.mk.injEq]
      constructor
      · exact range_map_getD_self n
      · simp only [List.map_cons, List.map_nil]
        rw [range_map_qcol_getD n ts, range_map_qcol_getD n amb,
            range_map_qcol_getD n act, range_map_qcol_getD n fau]

theorem resetIndexDrop_coreFrame (n : ℕ) (ts amb act fau : ℕ → ℚ) :
    (coreFrame n ts amb act fau).resetIndexDrop = coreFrame n ts amb act fau := by
  simp [Frame.resetIndexDrop, coreFrame, Frame.nRows]

/-- The columns after the calendar/basic step on a core frame. -/
def preCols1 (n : ℕ) (ts amb act fau : ℕ → ℚ) : List (String × List Cell) :=
  [("timestamp", qcol n ts), ("ambient_light", qcol n amb),
   ("active_lights_count", qcol n act), ("faulty_lights_count", qcol n fau),
   ("hour", (qcol n ts).map hourOfTs),
   ("day_of_week", (qcol n ts).map dowOfTs),
   ("is_weekend", ((qcol n ts).map dowOfTs).map fun c => boolToCell (cellGe c 5)),
   ("is_night", ((qcol n ts).map hourOfTs).map fun c =>
      boolToCell (cellGe c 20 || cellLeC c 6)),
   ("ambient_light_squared", (qcol n amb).map sqCell),
   ("ambient_light_log", (qcol n amb).map log1pCell)]

/-- ... plus the temporal step. -/
def preCols2 (n : ℕ) (ts amb act fau : ℕ → ℚ) : List (String × List Cell) :=
  preCols1 n ts amb act fau ++ [("time_since_start", timeSinceStart (qcol n ts))]

/-- The six derived series the rolling step adds for one source column. -/
def rollEntries (W : ℕ) (c : String) (xs : List Cell) : List (String × List Cell) :=
  [(c ++ "_rolling_mean", rollingMean W xs), (c ++ "_rolling_std", rollingStd W xs),
   (c ++ "_rolling_min", rollingMin W xs), (c ++ "_rolling_max", rollingMax W xs),
   (c ++ "_diff", seriesDiff xs), (c ++ "_pct_change", seriesPct xs)]

/-- The three lagged series the lag step adds for one source column. -/
def lagEntries (c : String) (xs : List Cell) : List (String × List Cell) :=
  [(c ++ "_lag_1", seriesLag 1 xs), (c ++ "_lag_3", seriesLag 3 xs),
   (c ++ "_lag_6", seriesLag 6 xs)]

/-- ... plus the rolling step. -/
def preCols3 (W n : ℕ) (ts amb act fau : ℕ → ℚ) : List (String × List Cell) :=
  preCols2 n ts amb act fau ++ rollEntries W "ambient_light" (qcol n amb) ++
    rollEntries W "active_lights_count" (qcol n act) ++
    rollEntries W "faulty_lights_count" (qcol n fau)

/-- ... plus the lag step: the full pre-pruning column list of
`create_features` (no label) on a core frame. -/
def preCols4 (W n : ℕ) (ts amb act fau : ℕ → ℚ) : List (String × List Cell) :=
  preCols3 W n ts amb act fau ++ lagEntries "ambient_light" (qcol n amb) ++
    lagEntries "active_lights_count" (qcol n act) ++
    lagEntries "faulty_lights_count" (qcol n fau)

theorem addBasicFeatures_coreFrame (n : ℕ) (ts amb act fau : ℕ → ℚ) :
    addBasicFeatures (coreFrame n ts amb act fau) =
      Frame.mk (List.range n) (preCols1 n ts amb act fau) := by
  unfold addBasicFeatures
  simp [coreFrame, Frame.getCol, lookupCol, Frame.setCol, setColAux, preCols1]

theorem addTemporalFeatures_step (n : ℕ) (ts amb act fau : ℕ → ℚ) :
    addTemporalFeatures (Frame.mk (List.range n) (preCols1 n ts amb act fau)) =
      Frame.mk (List.range n) (preCols2 n ts amb act fau) := by
  unfold addTemporalFeatures
  simp [preCols1, preCols2, Frame.getCol, lookupCol, Frame.setCol, setColAux]

theorem addRollingFeatures_step (W n : ℕ) (ts amb act fau : ℕ → ℚ) :
    addRollingFeatures W (Frame.mk (List.range n) (preCols2 n ts amb act fau)) =
      Frame.mk (List.range n) (preCols3 W n ts amb act fau) := by
  have h1 : addRollingFor W (Frame.mk (List.range n) (preCols2 n ts amb act fau))
      "ambient_light" = Frame.mk (List.range n)
        (preCols2 n ts amb act fau ++ rollEntries W "ambient_light" (qcol n amb)) := by
    refine (addRollingFor_some W _ "ambient_light" (qcol n amb) ?_).trans ?_
    · rfl
    · simp [preCols1, preCols2, rollEntries, Frame.setCol, setColAux]
  have h2 : addRollingFor W (Frame.mk (List.range n)
      (preCols2 n ts amb act fau ++ rollEntries W "ambient_light" (qcol n amb)))
      "active_lights_count" = Frame.mk (List.range n)
        (preCols2 n ts amb act fau ++ rollEntries W "ambient_light" (qcol n amb) ++
          rollEntries W "active_lights_count" (qcol n act)) := by
    refine (addRollingFor_some W _ "active_lights_count" (qcol n act) ?_).trans ?_
    · rfl
    · simp [preCols1, preCols2, rollEntries, Frame.setCol, setColAux]
  have h3 : addRollingFor W (Frame.mk (List.range n)
      (preCols2 n ts amb act fau ++ rollEntries W "ambient_light" (qcol n amb) ++
        rollEntries W "active_lights_count" (qcol n act)))
      "faulty_lights_count" = Frame.mk (List.range n) (preCols3 W n ts amb act fau) := by
    refine (addRollingFor_some W _ "faulty_lights_count" (qcol n fau) ?_).trans ?_
    · rfl
    · simp [preCols1, preCols2, preCols3, rollEntries, Frame.setCol, setColAux]
  unfold addRollingFeatures rollNames
  simp only [List.foldl_cons, List.foldl_nil]
  rw [h1, h2, h3]

theorem addLightFeatures_step (W n : ℕ) (ts amb act fau : ℕ → ℚ) :
    addLightFeatures (Frame.mk (List.range n) (preCols3 W n ts amb act fau)) =
      Frame.mk (List.range n) (preCols3 W n ts amb act fau) := by
  unfold addLightFeatures
  simp [lightLdrCols, lightFaultCols, lightStateCols, Frame.hasCol, Frame.getCol,
    lookupCol, preCols1, preCols2, preCols3, rollEntries]

/-- Unfolding one `addLagFor` pass when the source column is present. -/
theorem addLagFor_some (f : Frame) (c : String) (xs : List Cell)
    (h : f.getCol c = some xs) :
    addLagFor f c =
      ((f.setCol (c ++ "_lag_" ++ "1") (seriesLag 1 xs)).setCol
        (c ++ "_lag_" ++ "3") (seriesLag 3 xs)).setCol
        (c ++ "_lag_" ++ "6") (seriesLag 6 xs) := by
  unfold addLagFor lagList
  rw [h]
  rfl

theorem addLagFeatures_step (W n : ℕ) (ts amb act fau : ℕ → ℚ) :
    addLagFeatures (Frame.mk (List.range n) (preCols3 W n ts amb act fau)) =
      Frame.mk (List.range n) (preCols4 W n ts amb act fau) := by
  have h1 : addLagFor (Frame.mk (List.range n) (preCols3 W n ts amb act fau))
      "ambient_light" = Frame.mk (List.range n)
        (preCols3 W n ts amb act fau ++ lagEntries "ambient_light" (qcol n amb)) := by
    refine (addLagFor_some _ "ambient_light" (qcol n amb) ?_).trans ?_
    · rfl
    · simp [preCols1, preCols2, preCols3, rollEntries, lagEntries, Frame.setCol, setColAux]
  have h2 : addLagFor (Frame.mk (List.range n)
      (preCols3 W n ts amb act fau ++ lagEntries "ambient_light" (qcol n amb)))
      "active_lights_count" = Frame.mk (List.range n)
        (preCols3 W n ts amb act fau ++ lagEntries "ambient_light" (qcol n amb) ++
          lagEntries "active_lights_count" (qcol n act)) := by
    refine (addLagFor_some _ "active_lights_count" (qcol n act) ?_).trans ?_
    · rfl
    · simp [preCols1, preCols2, preCols3, rollEntries, lagEntries, Frame.setCol, setColAux]
  have h3 : addLagFor (Frame.mk (List.range n)
      (preCols3 W n ts amb act fau ++ lagEntries "ambient_light" (qcol n amb) ++
        lagEntries "active_lights_count" (qcol n act)))
      "faulty_lights_count" = Frame.mk (List.range n) (preCols4 W n ts amb act fau) := by
    refine (addLagFor_some _ "faulty_lights_count" (qcol n fau) ?_).trans ?_
    · rfl
    · simp [preCols1, preCols2, preCols3, preCols4, rollEntries, lagEntries,
        Frame.setCol, setColAux]
  unfold addLagFeatures rollNames
  simp only [List.foldl_cons, List.foldl_nil]
  rw [h1, h2, h3]

/-- The whole pre-pruning pipeline on a core frame. -/
theorem featurePipe_coreFrame (W n : ℕ) (ts amb act fau : ℕ → ℚ) :
    featurePipe W none (coreFrame n ts amb act fau) =
      (Frame.mk (List.range n) (preCols4 W n ts amb act fau)).dropna := by
  unfold featurePipe
  simp only [addBasicFeatures_coreFrame, addTemporalFeatures_step, addRollingFeatures_step,
      addLightFeatures_step, addLagFeatures_step]

/-- Survival predicate of the amended pruning claim: row `i` survives
`create_features` on a fully-populated core frame iff it is beyond the
largest lag AND none of the three percent-change cells at `i` is a 0/0
NaN. -/
def survivesB (amb act fau : ℕ → ℚ) (i : ℕ) : Bool :=
  decide (6 ≤ i) && !(decide (amb (i - 1) = 0) && decide (amb i = 0)) &&
    !(decide (act (i - 1) = 0) && decide (act i = 0)) &&
    !(decide (fau (i - 1) = 0) && decide (fau i = 0))

theorem rowComplete_preCols4 (W n : ℕ) (ts amb act fau : ℕ → ℚ) (hW : 2 ≤ W)
    (hamb : ∀ i, i < n → -1 < amb i) (i : ℕ) (hi : i < n) :
    rowComplete (Frame.mk (List.range n) (preCols4 W n ts amb act fau)) i =
      survivesB amb act fau i := by
  have hW1 : 1 ≤ W := by omega
  unfold rowComplete preCols4 preCols3 preCols2 preCols1 rollEntries lagEntries survivesB
  simp only [List.append_assoc, List.cons_append, List.nil_append, List.all_cons,
    List.all_nil, Bool.and_true, List.map_map]
  rw [qcol_getD n ts i hi, qcol_getD n amb i hi, qcol_getD n act i hi, qcol_getD n fau i hi,
      map_qcol_getD n ts hourOfTs i hi, map_qcol_getD n ts dowOfTs i hi,
      map_qcol_getD n ts ((fun c => boolToCell (cellGe c 5)) ∘ dowOfTs) i hi,
      map_qcol_getD n ts ((fun c => boolToCell (cellGe c 20 || cellLeC c 6)) ∘ hourOfTs) i hi,
      map_qcol_getD n amb sqCell i hi, map_qcol_getD n amb log1pCell i hi,
      timeSinceStart_qcol_isSome n ts i hi,
      rollingMean_qcol_isSome W n amb i hW1 hi, rollingStd_qcol_isSome_eq W n amb i hW hi,
      rollingMin_qcol_isSome W n amb i hW1 hi, rollingMax_qcol_isSome W n amb i hW1 hi,
      seriesDiff_qcol_isSome_eq n amb i hi, seriesPct_qcol_isSome_eq n amb i hi,
      rollingMean_qcol_isSome W n act i hW1 hi, rollingStd_qcol_isSome_eq W n act i hW hi,
      rollingMin_qcol_isSome W n act i hW1 hi, rollingMax_qcol_isSome W n act i hW1 hi,
      seriesDiff_qcol_isSome_eq n act i hi, seriesPct_qcol_isSome_eq n act i hi,
      rollingMean_qcol_isSome W n fau i hW1 hi, rollingStd_qcol_isSome_eq W n fau i hW hi,
      rollingMin_qcol_isSome W n fau i hW1 hi, rollingMax_qcol_isSome W n fau i hW1 hi,
      seriesDiff_qcol_isSome_eq n fau i hi, seriesPct_qcol_isSome_eq n fau i hi,
      seriesLag_qcol_isSome_eq 1 n amb i hi, seriesLag_qcol_isSome_eq 3 n amb i hi,
      seriesLag_qcol_isSome_eq 6 n amb i hi, seriesLag_qcol_isSome_eq 1 n act i hi,
      seriesLag_qcol_isSome_eq 3 n act i hi, seriesLag_qcol_isSome_eq 6 n act i hi,
      seriesLag_qcol_isSome_eq 1 n fau i hi, seriesLag_qcol_isSome_eq 3 n fau i hi,
      seriesLag_qcol_isSome_eq 6 n fau i hi,
      log1pCell_isSome (amb i) (hamb i hi)]
  simp only [Option.isSome_some, Function.comp_apply, hourOfTs, dowOfTs, sqCell,
    PVal.mul, boolToCell, Bool.true_and, Bool.and_true]
  by_cases h6 : 6 ≤ i
  · have h1 : 1 ≤ i := by omega
    have h3 : 3 ≤ i := by omega
    simp only [h6, h1, h3, decide_eq_true_eq, decide_True, Bool.true_and, Bool.and_true,
      Bool.and_assoc]
  · have h6f : decide (6 ≤ i) = false := by simp [h6]
    simp [h6f]

theorem dropna_preCols4_index (W n : ℕ) (ts amb act fau : ℕ → ℚ) (hW : 2 ≤ W)
    (hamb : ∀ i, i < n → -1 < amb i) :
    (Frame.mk (List.range n) (preCols4 W n ts amb act fau)).dropna.index =
      (List.range n).filter (survivesB amb act fau) := by
  unfold Frame.dropna Frame.nRows
  simp only [List.length_range]
  have hcong : ∀ i ∈ List.range n,
      rowComplete (Frame.mk (List.range n) (preCols4 W n ts amb act fau)) i =
        survivesB amb act fau i := fun i hi =>
    rowComplete_preCols4 W n ts amb act fau hW hamb i (List.mem_range.mp hi)
  rw [List.filter_congr hcong]
  have hid : ∀ i ∈ (List.range n).filter (survivesB amb act fau),
      (List.range n).getD i 0 = i := by
    intro i hi
    exact range_getD n i (List.mem_range.mp (List.mem_filter.mp hi).1)
  rw [List.map_congr_left hid, List.map_id']

/-- C2 (amended): the pruning step of `create_features` is `df.dropna()`,
which drops every row containing a null in ANY column, not only lag/diff
columns.  For a core frame with all cells finite and non-null, ambient light
above -1, strictly increasing timestamps and window size at least 2, the
rows surviving to the output are exactly those at position ≥ 6 (the largest
lag) whose three percent-change cells are non-null, i.e. for each of the
three lag-source columns the previous and current value are not both zero
(`pct_change` of a 0→0 transition is 0/0 = NaN).  In particular the first 6
rows are always dropped, but — contrary to the original claim — later rows
are dropped too whenever any other column holds a null (see the
counterexample, where a constant-zero faulty count empties the frame). -/
theorem createFeatures_coreFrame_survivors (W n : ℕ) (ts amb act fau : ℕ → ℚ)
    (hW : 2 ≤ W) (hts : ∀ j, j < n → ∀ i, i < j → ts i < ts j)
    (hamb : ∀ i, i < n → -1 < amb i) :
    (createFeatures W (coreFrame n ts amb act fau) none).map Frame.index =
      .ok ((List.range n).filter (survivesB amb act fau)) := by
  by_cases hn : n = 0
  · subst hn
    simp [createFeatures, coreFrame, Frame.isEmpty, Frame.nRows, Except.map]
  · have hne : (coreFrame n ts amb act fau).isEmpty = false := by
      simp [coreFrame, Frame.isEmpty, Frame.nRows, hn]
    unfold createFeatures
    rw [hne]
    simp only [Bool.false_eq_true, if_false]
    rw [sortValuesTs_coreFrame n ts amb act fau hts]
    simp only [Except.map]
    rw [resetIndexDrop_coreFrame, featurePipe_coreFrame,
        dropna_preCols4_index W n ts amb act fau hW hamb]

def tsW : ℕ → ℚ := fun i => [0, 1, 2, 3, 4, 5, 6, 7].getD i 0

def ambW : ℕ → ℚ := fun i => [10, 11, 12, 13, 14, 15, 16, 17].getD i 0

def actW : ℕ → ℚ := fun _ => 1

def fauW : ℕ → ℚ := fun i => [0, 1, 0, 1, 0, 1, 0, 1].getD i 0

theorem createFeatures_coreFrame_survivors_witness :
    2 ≤ 10 ∧ (∀ j, j < 8 → ∀ i, i < j → tsW i < tsW j) ∧ (∀ i, i < 8 → -1 < ambW i) ∧
      (createFeatures 10 (coreFrame 8 tsW ambW actW fauW) none).map Frame.index =
        .ok ((List.range 8).filter (survivesB ambW actW fauW)) :=
  ⟨by decide, by decide, by decide,
   createFeatures_coreFrame_survivors 10 8 tsW ambW actW fauW (by decide) (by decide)
     (by decide)⟩

end Streetlight
